import Mathlib

/-!
Shallow embedding of `src/app.py` (a disease-surveillance report generator):
the disease classifier `get_disease_class`, the numeric normalizer used at
ingestion, the contingency statistics engine `process_stats_table`, the age
binning `bin_ages`, the ingestion router `parse_files`, and the narrative
generator `ReportGenerator` (`fmt_trend`, `get_top_diseases_text`,
`generate_full_report`).

Python/pandas values are modelled exactly: machine floats become `PyFloat`
(exact rationals plus `inf`/`-inf`/`nan`), cells become `PyVal`, data frames
become `DF` (ordered column headers plus rows of cells).  Fallible pandas
operations (`.iloc[0]` on an empty selection, `int()` of a non-numeric value,
comparisons between strings and numbers, `scipy.stats.chi2_contingency`
raising) are modelled with `Except String`.
-/

/-- IEEE-754 style Python/numpy float values with exact rational finite part.
Binary rounding of decimal literals is not modelled: finite values are exact
rationals, which agrees with the program on every input exercised here. -/
inductive PyFloat where
  | fin (q : ℚ)
  | inf
  | ninf
  | nan
deriving DecidableEq, Repr

namespace PyFloat

/-- Negation of a float (`-x`; `-nan` is `nan`). -/
def neg : PyFloat → PyFloat
  | fin q => fin (-q)
  | inf => ninf
  | ninf => inf
  | nan => nan

/-- IEEE addition (as performed by `pandas`/`numpy` sums). -/
def add (a b : PyFloat) : PyFloat :=
  match a, b with
  | nan, _ => nan
  | _, nan => nan
  | inf, ninf => nan
  | ninf, inf => nan
  | inf, _ => inf
  | _, inf => inf
  | ninf, _ => ninf
  | _, ninf => ninf
  | fin x, fin y => fin (x + y)

/-- IEEE multiplication. -/
def mul (a b : PyFloat) : PyFloat :=
  match a, b with
  | nan, _ => nan
  | _, nan => nan
  | fin x, fin y => fin (x * y)
  | inf, fin y => if y = 0 then nan else if 0 < y then inf else ninf
  | fin x, inf => if x = 0 then nan else if 0 < x then inf else ninf
  | ninf, fin y => if y = 0 then nan else if 0 < y then ninf else inf
  | fin x, ninf => if x = 0 then nan else if 0 < x then ninf else inf
  | inf, inf => inf
  | ninf, ninf => inf
  | inf, ninf => ninf
  | ninf, inf => ninf

/-- IEEE division as numpy performs it (division by zero yields a signed
infinity or `nan`, never an exception).  `ℚ` has a single zero, so the sign
of a zero divisor is not modelled (irrelevant to every path used here). -/
def div (a b : PyFloat) : PyFloat :=
  match a, b with
  | nan, _ => nan
  | _, nan => nan
  | fin x, fin y =>
      if y = 0 then (if x = 0 then nan else if 0 < x then inf else ninf)
      else fin (x / y)
  | inf, fin y => if 0 ≤ y then inf else ninf
  | ninf, fin y => if 0 ≤ y then ninf else inf
  | fin _, inf => fin 0
  | fin _, ninf => fin 0
  | inf, inf => nan
  | inf, ninf => nan
  | ninf, inf => nan
  | ninf, ninf => nan

/-- IEEE strict less-than (`nan` compares false with everything). -/
def ltb (a b : PyFloat) : Bool :=
  match a, b with
  | nan, _ => false
  | _, nan => false
  | fin x, fin y => decide (x < y)
  | ninf, ninf => false
  | ninf, _ => true
  | _, ninf => false
  | inf, _ => false
  | _, inf => true

/-- IEEE less-or-equal (`nan` compares false with everything). -/
def leb (a b : PyFloat) : Bool :=
  match a, b with
  | nan, _ => false
  | _, nan => false
  | fin x, fin y => decide (x ≤ y)
  | ninf, _ => true
  | _, ninf => false
  | _, inf => true
  | inf, fin _ => false

/-- IEEE strict greater-than. -/
def gtb (a b : PyFloat) : Bool := ltb b a

/-- Absolute value (`abs(nan)` is `nan`). -/
def pfAbs : PyFloat → PyFloat
  | fin q => fin |q|
  | inf => inf
  | ninf => inf
  | nan => nan

/-- Whether the float is a finite value. -/
def isFinite : PyFloat → Bool
  | fin _ => true
  | _ => false

end PyFloat

/-- Substring containment, Python's `pat in s` on strings. -/
def strContains (s pat : String) : Bool := decide (pat.data <:+: s.data)

/-- Python's single-character `s.replace(c, '')` (also pandas
`.str.replace(c, '')` with a one-character literal pattern): every
occurrence of the character is deleted. -/
def delChar (c : Char) (s : String) : String := ⟨s.data.filter (fun x => x ≠ c)⟩

/-- Python's single-character `s.replace(c, d)` (also pandas
`.str.replace(c, d)` with one-character literal pattern and replacement):
every occurrence of `c` becomes `d`. -/
def mapChar (c d : Char) (s : String) : String :=
  ⟨s.data.map (fun x => if x = c then d else x)⟩

/-- The ASCII whitespace characters stripped by Python's `str.strip()` and by
`float(...)` (exotic Unicode whitespace is not exercised by any input here). -/
def isPyWS (c : Char) : Bool :=
  c = ' ' || c = '\t' || c = '\n' || c = '\r' || c = '\x0b' || c = '\x0c'

/-- Strip leading and trailing whitespace from a character list. -/
def stripList (cs : List Char) : List Char :=
  ((cs.dropWhile isPyWS).reverse.dropWhile isPyWS).reverse

/-- Python `str.strip()`. -/
def stripStr (s : String) : String := ⟨stripList s.data⟩

/-- `10 ^ n` as a rational, via kernel-friendly natural-number power. -/
def qpow10n (n : ℕ) : ℚ := ((10 ^ n : ℕ) : ℚ)

/-- `10 ^ e` for an integer exponent, via kernel-friendly operations. -/
def qpow10z (e : ℤ) : ℚ := if 0 ≤ e then qpow10n e.toNat else 1 / qpow10n (-e).toNat

/-- Floor of a rational via core integer floor-division (kernel-friendly). -/
def qfloor (q : ℚ) : ℤ := q.num.fdiv q.den

/-- Numeric value of a decimal digit character. -/
def digitVal (c : Char) : ℕ := c.toNat - 48

/-- The natural number denoted by a list of decimal digit characters. -/
def natOfDigits (ds : List Char) : ℕ := ds.foldl (fun a c => 10 * a + digitVal c) 0

/-- Parse the mantissa `digits[.digits]` of a float literal, returning its
(nonnegative) value and the unconsumed remainder; at least one digit must be
present on one side of the point (Python accepts `1.`, `.5`, rejects `.`). -/
def parseMantissa (cs : List Char) : Option (ℚ × List Char) :=
  match cs.dropWhile Char.isDigit with
  | '.' :: r2 =>
      if (cs.takeWhile Char.isDigit).isEmpty && (r2.takeWhile Char.isDigit).isEmpty
      then none
      else some ((natOfDigits (cs.takeWhile Char.isDigit) : ℚ)
        + (natOfDigits (r2.takeWhile Char.isDigit) : ℚ)
            / qpow10n (r2.takeWhile Char.isDigit).length,
        r2.dropWhile Char.isDigit)
  | _ =>
      if (cs.takeWhile Char.isDigit).isEmpty then none
      else some ((natOfDigits (cs.takeWhile Char.isDigit) : ℚ), cs.dropWhile Char.isDigit)

/-- Parse a nonempty all-digit exponent. -/
def parseExpDigits (cs : List Char) : Option ℕ :=
  if cs.isEmpty then none
  else if cs.all Char.isDigit then some (natOfDigits cs) else none

/-- Parse an optionally signed exponent. -/
def parseSignedExp (cs : List Char) : Option ℤ :=
  match cs with
  | '-' :: r => (parseExpDigits r).map (fun n => -(n : ℤ))
  | '+' :: r => (parseExpDigits r).map (fun n => (n : ℤ))
  | _ => (parseExpDigits cs).map (fun n => (n : ℤ))

/-- Parse the remainder after the mantissa: empty, or `e`/`E` exponent. -/
def parseExpPart (cs : List Char) : Option ℤ :=
  match cs with
  | [] => some 0
  | 'e' :: r => parseSignedExp r
  | 'E' :: r => parseSignedExp r
  | _ => none

/-- Parse an unsigned float token: `inf`/`infinity`/`nan` (case-insensitive,
as Python's `float()` and pandas' numeric conversion accept) or a decimal
mantissa with optional exponent.  Exponents are evaluated exactly over `ℚ`;
float64 overflow to infinity for huge exponents is not modelled (no claim
depends on it). -/
def pyParseMag (cs : List Char) : Option PyFloat :=
  if cs.map Char.toLower = "inf".data || cs.map Char.toLower = "infinity".data
  then some PyFloat.inf
  else if cs.map Char.toLower = "nan".data then some PyFloat.nan
  else
    match parseMantissa cs with
    | none => none
    | some (m, rest) =>
        match parseExpPart rest with
        | none => none
        | some e => some (PyFloat.fin (m * qpow10z e))

/-- Parse an optionally signed float token. -/
def pyParseSigned (cs : List Char) : Option PyFloat :=
  match cs with
  | '-' :: r => (pyParseMag r).map PyFloat.neg
  | '+' :: r => pyParseMag r
  | _ => pyParseMag cs

/-- The numeric-string parser shared by Python's `float(...)` and pandas'
`pd.to_numeric` on strings: strip whitespace, then parse a signed float
token; `none` models `ValueError` / coercion to `NaN`. -/
def pyParseFloat (s : String) : Option PyFloat := pyParseSigned (stripList s.data)

/-- A Python/pandas cell value: a string or a float.  The extra constructor
`pcell` represents the formatted p-value string that
`process_stats_table` writes into its `P值` column: scipy's p-value is the
chi-squared survival function, a transcendental quantity no claim inspects
numerically, so it is kept symbolically as "the formatted p-value for the
statistic `chi2` with `dof` degrees of freedom" (`format_p_value` applied to
it).  Integer cells are represented as integral floats, matching what
`pd.read_excel`/`pd.to_numeric` produce on the tables modelled here. -/
inductive PyVal where
  | str (s : String)
  | num (f : PyFloat)
  | pcell (chi2 : ℚ) (dof : ℕ)
deriving DecidableEq, Repr

/-- Python `str(...)` of a float, as used by `.astype(str)`: integral floats
print as `"<n>.0"`.  The shortest-roundtrip repr of non-integral floats is
not modelled exactly (Lean's `ℚ` repr stands in); no claim evaluates
`astype(str)` on a non-integral float. -/
def floatRepr (f : PyFloat) : String :=
  match f with
  | .fin q => if q.den = 1 then toString q.num ++ ".0" else toString q
  | .inf => "inf"
  | .ninf => "-inf"
  | .nan => "nan"

/-- Python `str(...)` of a cell, as used by `.astype(str)` and f-string
interpolation of a row entry. -/
def pyValStr (v : PyVal) : String :=
  match v with
  | .str s => s
  | .num f => floatRepr f
  | .pcell _ _ => "<p-value>"

/-- `pd.to_numeric(x, errors='coerce')` on a single cell (no NaN filling):
floats pass through, numeric strings parse, anything else becomes `NaN`. -/
def toNumericCell (v : PyVal) : PyFloat :=
  match v with
  | .num f => f
  | .str s => (pyParseFloat s).getD .nan
  | .pcell _ _ => .nan

/-- `pd.to_numeric(x, errors='coerce').fillna(0)` on a single cell. -/
def coerceFill0 (v : PyVal) : PyFloat :=
  match toNumericCell v with
  | .nan => .fin 0
  | f => f

/-- The numeric normalizer applied to summary-table cells at ingestion
(`app.py` line 222): `pd.to_numeric(str(x).replace(',', '').replace('-', '0'),
errors='coerce').fillna(0)` — delete thousands separators, replace every dash
with `'0'`, parse, defaulting to `0.0`. -/
def toNumber (s : String) : PyFloat :=
  coerceFill0 (.str (mapChar '-' '0' (delChar ',' s)))

/-- Ingestion cleaning of one summary-table cell: `astype(str)` then
`toNumber`. -/
def cleanSummaryCell (v : PyVal) : PyVal := .num (toNumber (pyValStr v))

/-- Round a rational to the nearest integer, ties to even — the rounding of
numpy's `.round` and of Python's fixed-point float formatting (whose
round-half-even acts on the binary value; the exact-tie behaviour is not hit
by any input here). -/
def roundHalfEvenZ (x : ℚ) : ℤ :=
  if x - (qfloor x : ℚ) < 1/2 then qfloor x
  else if 1/2 < x - (qfloor x : ℚ) then qfloor x + 1
  else if qfloor x % 2 = 0 then qfloor x else qfloor x + 1

/-- Two-digit zero padding. -/
def pad2 (n : ℕ) : String := if n < 10 then "0" ++ toString n else toString n

/-- Python `f"{q:.2f}"` for a nonnegative rational. -/
def fmt2Mag (q : ℚ) : String :=
  let c := (roundHalfEvenZ (q * 100)).toNat
  toString (c / 100) ++ "." ++ pad2 (c % 100)

/-- Python `f"{v:.2f}"` on a float (`inf` and `nan` print as themselves). -/
def fmt2 (f : PyFloat) : String :=
  match f with
  | .fin q => if q < 0 then "-" ++ fmt2Mag (-q) else fmt2Mag q
  | .inf => "inf"
  | .ninf => "-inf"
  | .nan => "nan"

/-- The `甲类` (statutory tier A) exact-name set, `DISEASE_CLASS['甲类']`. -/
def classA : List String := ["鼠疫", "霍乱"]

/-- The `乙类` (statutory tier B) exact-name set, `DISEASE_CLASS['乙类']`. -/
def classB : List String :=
  ["传染性非典型肺炎", "艾滋病", "病毒性肝炎", "脊髓灰质炎", "人感染高致病性禽流感",
   "麻疹", "流行性出血热", "狂犬病", "流行性乙型脑炎", "登革热", "炭疽", "细菌性痢疾",
   "阿米巴性痢疾", "肺结核", "伤寒", "副伤寒", "流行性脑脊髓膜炎", "百日咳", "白喉",
   "新生儿破伤风", "猩红热", "布鲁氏菌病", "淋病", "梅毒", "钩端螺旋体病", "血吸虫病",
   "疟疾", "新型冠状病毒感染", "新冠病毒感染", "人感染H7N9禽流感", "猴痘"]

/-- The `丙类` (statutory tier C) exact-name set, `DISEASE_CLASS['丙类']`. -/
def classC : List String :=
  ["流行性感冒", "流行性腮腺炎", "风疹", "急性出血性结膜炎", "麻风病", "流行性斑疹伤寒",
   "地方性斑疹伤寒", "黑热病", "包虫病", "丝虫病",
   "除霍乱、细菌性痢疾、伤寒和副伤寒以外的感染性腹泻病", "手足口病",
   "其它感染性腹泻病", "其他感染性腹泻病"]

/-- Tier-B indicative substrings: `['肝炎', '梅毒', '炭疽', '艾滋']`. -/
def bKeys : List String := ["肝炎", "梅毒", "炭疽", "艾滋"]

/-- Tier-C indicative substrings: `['腹泻', '斑疹']`. -/
def cKeys : List String := ["腹泻", "斑疹"]

/-- Name normalization in `get_disease_class`:
`str(name).replace(' ', '').strip()`. -/
def normName (s : String) : String := stripStr (delChar ' ' s)

/-- `get_disease_class` (`app.py` lines 26-31): tier-A exact set first, then
tier-B exact set or tier-B substring, then tier-C exact set or tier-C
substring, else `其他` (unclassified). -/
def get_disease_class (name : String) : String :=
  if normName name ∈ classA then "甲类"
  else if normName name ∈ classB ∨ bKeys.any (fun k => strContains (normName name) k) = true
    then "乙类"
  else if normName name ∈ classC ∨ cKeys.any (fun k => strContains (normName name) k) = true
    then "丙类"
  else "其他"

/-- A parsed data frame: ordered column headers and rows of cells. -/
structure DF where
  cols : List String
  rows : List (List PyVal)
deriving DecidableEq, Repr

/-- Well-formedness pandas guarantees by construction: every row has exactly
one cell per column. -/
def DF.wf (df : DF) : Prop := ∀ r ∈ df.rows, r.length = df.cols.length

/-- Position of a named column (`df.columns.get_loc` / label lookup),
`none` modelling `KeyError`. -/
def colIdx (df : DF) (name : String) : Option ℕ :=
  df.cols.findIdx? (fun c => c = name)

/-- The cell of a row at a column position (total accessor; the default is
never reached on well-formed frames). -/
def rowCell (r : List PyVal) (i : ℕ) : PyVal := r.getD i (.str "")

/-- `Series.get(label, default)` on a row. -/
def rowGet (df : DF) (r : List PyVal) (name : String) (dflt : PyVal) : PyVal :=
  match colIdx df name with
  | some i => rowCell r i
  | none => dflt

/-- Python `float(val)` on a cell: floats pass through, strings are parsed,
failure is `none` (a raised `ValueError`). -/
def pyFloatOfVal (v : PyVal) : Option PyFloat :=
  match v with
  | .num f => some f
  | .str s => pyParseFloat s
  | .pcell _ _ => none

/-- `ReportGenerator.fmt_trend` (`app.py` lines 84-91): coerce to float;
positive → `上升{v:.2f}%`, negative → `下降{abs(v):.2f}%`, zero, `nan` or
coercion failure → `持平`. -/
def fmt_trend (v : PyVal) : String :=
  match pyFloatOfVal v with
  | none => "持平"
  | some f =>
      if PyFloat.gtb f (.fin 0) then "上升" ++ fmt2 f ++ "%"
      else if PyFloat.ltb f (.fin 0) then "下降" ++ fmt2 (PyFloat.pfAbs f) ++ "%"
      else "持平"

/-- Truncate a rational toward zero, Python's `int()` on a float. -/
def ratTrunc (q : ℚ) : ℤ := if q < 0 then -qfloor (-q) else qfloor q

/-- Python `int(x)` on a cell: finite floats truncate toward zero; `inf`,
`nan` raise (`OverflowError`/`ValueError`); integral strings parse; anything
else raises. -/
def pyIntOfVal (v : PyVal) : Except String ℤ :=
  match v with
  | .num (.fin q) => .ok (ratTrunc q)
  | .num _ => .error "ValueError: cannot convert float to integer"
  | .str s =>
      match stripList s.data with
      | '-' :: ds => if ds ≠ [] && ds.all Char.isDigit
          then .ok (-(natOfDigits ds : ℤ))
          else .error "ValueError: invalid literal for int()"
      | '+' :: ds => if ds ≠ [] && ds.all Char.isDigit
          then .ok ((natOfDigits ds : ℤ))
          else .error "ValueError: invalid literal for int()"
      | ds => if ds ≠ [] && ds.all Char.isDigit
          then .ok ((natOfDigits ds : ℤ))
          else .error "ValueError: invalid literal for int()"
  | .pcell _ _ => .error "ValueError: invalid literal for int()"

/-- Pandas comparison of a cell against the number `0` (`col > 0`): numeric
cells compare IEEE-style (`nan > 0` is false); a string cell raises
`TypeError`. -/
def pyGtZero (v : PyVal) : Except String Bool :=
  match v with
  | .num f => .ok (PyFloat.gtb f (.fin 0))
  | _ => .error "TypeError: not supported between str and int"

/-- Whether the cell is a float. -/
def isNumCell (v : PyVal) : Bool :=
  match v with
  | .num _ => true
  | _ => false

/-- Unwrap an `Option` into `Except` with the raised message. -/
def orErr {α : Type} (o : Option α) (msg : String) : Except String α :=
  match o with
  | some a => .ok a
  | none => .error msg

/-- `len(df[df[name] > 0])`: count rows whose cell in the named column is
greater than zero. -/
def countGt0 (df : DF) (name : String) : Except String ℕ := do
  let i ← orErr (colIdx df name) ("KeyError: " ++ name)
  let bs ← df.rows.mapM (fun r => pyGtZero (rowCell r i))
  return bs.count true

/-- `df[name].sum()` on numeric cells: pandas sums with `skipna=True`, so
`nan` cells are ignored and the empty sum is `0.0`; a string cell is
modelled as an error (pandas object-dtype reduction; never reached on the
frames exercised here). -/
def sumCol (df : DF) (name : String) : Except String PyFloat := do
  let i ← orErr (colIdx df name) ("KeyError: " ++ name)
  let vs ← df.rows.mapM (fun r =>
    match rowCell r i with
    | .num f => Except.ok f
    | _ => Except.error "TypeError: unsupported reduction")
  return (vs.filter (fun f => f ≠ .nan)).foldl PyFloat.add (.fin 0)

/-- The sort key of a row: its numeric cell in the case-count column (`nan`
stands in for the unreachable non-numeric case, which the callers rule out
before sorting). -/
def cellKey (ci : ℕ) (r : List PyVal) : PyFloat :=
  match rowCell r ci with
  | .num f => f
  | _ => .nan

/-- Descending may-precede relation on sort keys: `a` may be placed before
`b`.  Ties (and two `nan`s) allow either order, so the stable sort keeps the
original order; `nan` sorts last, pandas' `na_position='last'`. -/
def keyGe (a b : PyFloat) : Bool :=
  match a, b with
  | .nan, .nan => true
  | .nan, _ => false
  | _, .nan => true
  | x, y => PyFloat.leb y x

/-- Row ordering used by `sort_values('本期发病数', ascending=False)`. -/
def rowGe (ci : ℕ) (r1 r2 : List PyVal) : Prop :=
  keyGe (cellKey ci r1) (cellKey ci r2) = true

instance (ci : ℕ) : DecidableRel (rowGe ci) := fun r1 r2 => by
  unfold rowGe; infer_instance

/-- `df.sort_values('本期发病数', ascending=False)`.  The program's default
`kind='quicksort'` (numpy introsort) is not a stable sort, so its order on
tied keys is an implementation artifact this embedding does not reproduce;
the model resolves ties stably (original input order).  Every row list a
theorem of this file evaluates through this function has pairwise distinct
sort keys (or takes an error path before sorting), and on such inputs every
descending comparison sort — numpy's included — produces the same output, so
no proved statement depends on the modelled tie order. -/
def sortRowsDesc (ci : ℕ) (rows : List (List PyVal)) : List (List PyVal) :=
  List.insertionSort (rowGe ci) rows

/-- `"、".join(top_list)`. -/
def joinSep (sep : String) (l : List String) : String :=
  match l with
  | [] => ""
  | x :: xs => xs.foldl (fun a b => a ++ sep ++ b) x

/-- The description built for one kept row inside
`get_top_diseases_text`: `f"{name}（{cases}例，占比{percent:.2f}%，较上月
{fmt_trend(mom)}，较去年同期{fmt_trend(yoy)}）"`. -/
def descOfRow (df : DF) (total : PyFloat) (ci : ℕ) (r : List PyVal) :
    Except String String := do
  let name := pyValStr (rowCell r 0)
  let cases ← pyIntOfVal (rowCell r ci)
  let percent := PyFloat.mul (PyFloat.div (.fin (cases : ℚ)) total) (.fin 100)
  let mom := rowGet df r "与上期比（%）" (.num (.fin 0))
  let yoy := rowGet df r "与去年同期比（%）" (.num (.fin 0))
  return name ++ "（" ++ toString cases ++ "例，占比" ++ fmt2 percent ++ "%，较上月"
    ++ fmt_trend mom ++ "，较去年同期" ++ fmt_trend yoy ++ "）"

/-- The rows `get_top_diseases_text` keeps: the first three of the
descending sort, minus those whose case count compares `<= 0`. -/
def selectedRows (ci : ℕ) (rows : List (List PyVal)) : List (List PyVal) :=
  ((sortRowsDesc ci rows).take 3).filter
    (fun r => !(PyFloat.leb (cellKey ci r) (.fin 0)))

/-- `ReportGenerator.get_top_diseases_text` (`app.py` lines 93-117): empty
frame → fixed no-cases phrase; sort descending by `本期发病数`; walk the
first three rows, skipping those with `cases <= 0` (no backfilling); emit the
joined descriptions, or the no-cases phrase if none survived.  A sort over a
column containing string cells is modelled as an error: pandas either raises
in the mixed-type sort or, in the all-string case, raises at the following
`row['本期发病数'] <= 0` comparison, so the Python outcome is an exception
either way. -/
def get_top_diseases_text (df : DF) (total : PyFloat) : Except String String :=
  if df.rows.isEmpty then .ok "无报告病例。"
  else
    match colIdx df "本期发病数" with
    | none => .error "KeyError: 本期发病数"
    | some ci =>
        if df.rows.any (fun r => !(isNumCell (rowCell r ci))) then
          .error "TypeError: unorderable column"
        else
          match (selectedRows ci df.rows).mapM (descOfRow df total ci) with
          | .error e => .error e
          | .ok descs =>
              .ok (if descs.isEmpty then "无报告病例。" else joinSep "、" descs)

/-- One tier paragraph of `generate_full_report` (`app.py` lines 142-169):
empty tier → fixed no-report line; otherwise sum the tier's cases, count its
reported diseases, build the ranked description when the subtotal is
positive (the fixed `无` otherwise), and interpolate the template. -/
def tierSection (dft : DF) (head lead : String) : Except String String :=
  if dft.rows.isEmpty then .ok ("\n" ++ head ++ "：无报告。\n")
  else do
    let cases ← sumCol dft "本期发病数"
    let cnt ← countGt0 dft "本期发病数"
    let txt ← if PyFloat.gtb cases (.fin 0) then get_top_diseases_text dft cases
              else Except.ok "无"
    let casesInt ← pyIntOfVal (.num cases)
    return "\n" ++ head ++ "：本月报告 **" ++ toString cnt ++ "** 种，合计 **"
      ++ toString casesInt ++ "** 例。\n   " ++ lead ++ "：**" ++ txt
      ++ "**。\n            "

/-- `ReportGenerator.generate_full_report` (`app.py` lines 119-171).  A
missing summary table returns the fixed placeholder normally; with a summary
table the function runs with no exception handler, so the pandas operations
that can raise — `.iloc[0]` on the empty selection when no row's first cell
contains `合计`, the `本期发病数` column lookup, `int()` of its cell, the
`> 0` comparisons — are modelled as `Except.error`. -/
def generate_full_report (summary : Option DF) : Except String String :=
  match summary with
  | none => .ok "⚠️ 缺失疫情分析报表，无法生成概况。"
  | some df => do
      let trow ← orErr
        (df.rows.filter (fun r => strContains (pyValStr (rowCell r 0)) "合计")).head?
        "IndexError: single positional indexer is out-of-bounds"
      let ci ← orErr (colIdx df "本期发病数") "KeyError: 本期发病数"
      let total_cases ← pyIntOfVal (rowCell trow ci)
      let total_mom := rowGet df trow "与上期比（%）" (.num (.fin 0))
      let total_yoy := rowGet df trow "与去年同期比（%）" (.num (.fin 0))
      let detail := df.rows.filter
        (fun r => !(strContains (pyValStr (rowCell r 0)) "合计"))
      let dfd : DF := ⟨df.cols, detail⟩
      let reported ← countGt0 dfd "本期发病数"
      let s1 := "\n### 一、 近期概况\n**(一) 传染病报告信息管理系统**\n1. **传染病疫情**：本月我区共报告法定传染病 **"
        ++ toString reported ++ "** 种 **" ++ toString total_cases
        ++ "** 例。\n   与上月相比" ++ fmt_trend total_mom ++ "；与去年同期相比"
        ++ fmt_trend total_yoy ++ "。\n        "
      let dfb : DF := ⟨df.cols,
        detail.filter (fun r => get_disease_class (pyValStr (rowCell r 0)) == "乙类")⟩
      let s2 ← tierSection dfb "2. **乙类传染病**" "发病数居前几位的病种为"
      let dfc : DF := ⟨df.cols,
        detail.filter (fun r => get_disease_class (pyValStr (rowCell r 0)) == "丙类")⟩
      let s3 ← tierSection dfc "3. **丙类传染病**" "主要流行病种为"
      return s1 ++ s2 ++ s3

/-- Pandas-style sum of a list of floats with `skipna=True`: `nan` entries
are masked, then added IEEE-style (empty sum `0.0`). -/
def pfSum (l : List PyFloat) : PyFloat :=
  (l.filter (fun f => f ≠ .nan)).foldl PyFloat.add (.fin 0)

/-- numpy `.sum()` over a matrix (no `nan` masking; `process_stats_table`
reaches it only after `fillna(0)`, so no `nan` is present). -/
def pfSumAll (m : List (List PyFloat)) : PyFloat :=
  m.foldl (fun a row => row.foldl PyFloat.add a) (.fin 0)

/-- numpy `.round(2)` on a float (`inf`/`nan` round to themselves). -/
def pfRound2 (f : PyFloat) : PyFloat :=
  match f with
  | .fin q => .fin ((roundHalfEvenZ (q * 100) : ℚ) / 100)
  | x => x

/-- Number of value columns of a statistics table: `val_cols = cols[1:]`. -/
def valCount (df : DF) : ℕ := (df.cols.drop 1).length

/-- Coerce one row of `process_stats_table`: every value column (all but the
first) through `pd.to_numeric(..., errors='coerce').fillna(0)`. -/
def coerceRow (r : List PyVal) : List PyVal :=
  match r with
  | [] => []
  | x :: t => x :: t.map (fun v => PyVal.num (coerceFill0 v))

/-- The numeric value cells of a coerced row. -/
def rowVals (r : List PyVal) : List PyFloat :=
  (r.drop 1).map (fun v =>
    match v with
    | .num f => f
    | _ => .nan)

/-- The observation matrix `stats_df[val_cols].values` after coercion. -/
def obsMatrix (df : DF) : List (List PyFloat) :=
  df.rows.map (fun r => rowVals (coerceRow r))

/-- `obs[~np.all(obs == 0, axis=1)]`: drop the all-zero rows. -/
def obsClean (df : DF) : List (List PyFloat) :=
  (obsMatrix df).filter (fun row => !(row.all (fun f => f == .fin 0)))

/-- The table after the unconditional enrichment of `process_stats_table`:
value columns coerced, `合计` (row total) and `构成比(%)` (composition
percent, rounded to 2 decimals) appended.  Division by a zero grand total
follows numpy (`inf`/`nan` cells, no exception). -/
def enrichBase (df : DF) : DF :=
  let crows := df.rows.map coerceRow
  let totals := crows.map (fun r => pfSum (rowVals r))
  let grand := pfSum totals
  ⟨df.cols ++ ["合计", "构成比(%)"],
   (crows.zip totals).map (fun p =>
     p.1 ++ [PyVal.num p.2,
             PyVal.num (pfRound2 (PyFloat.mul (PyFloat.div p.2 grand) (.fin 100)))])⟩

/-- Extract the matrix of finite rationals, `none` if any entry is not
finite.  scipy's handling of non-finite observations (it propagates `nan`
without raising) is not modelled; the theorems about the statistics engine
assume finite observations, which every exercised table satisfies. -/
def allFinQ (m : List (List PyFloat)) : Option (List (List ℚ)) :=
  m.mapM (fun row => row.mapM (fun f =>
    match f with
    | .fin q => some q
    | _ => none))

/-- Sum of a list of rationals. -/
def qSum (l : List ℚ) : ℚ := l.foldl (· + ·) 0

/-- `scipy.stats.chi2_contingency(obs)` with its default Yates continuity
correction, over exact rationals: raise on a negative observation; compute
expected frequencies from the margins; raise if any expected frequency is
zero; with one degree of freedom apply the correction
`observed + 0.5 * sign(expected - observed)`; return the Pearson statistic
and the degrees of freedom (the p-value is kept symbolically, see
`PyVal.pcell`). -/
def chi2_contingency (m : List (List ℚ)) : Except String (ℚ × ℕ) :=
  if m.any (fun row => row.any (fun x => decide (x < 0))) then
    .error "ValueError: All values in observed must be nonnegative."
  else
    let nr := m.length
    let nc := (m.headD []).length
    let rowS := m.map qSum
    let colS := (List.range nc).map (fun j => qSum (m.map (fun r => r.getD j 0)))
    let total := qSum rowS
    let expAt := fun (i j : ℕ) => rowS.getD i 0 * colS.getD j 0 / total
    if (List.range nr).any (fun i => (List.range nc).any (fun j => expAt i j == 0)) then
      .error "ValueError: The internally computed table of expected frequencies has a zero element."
    else
      let dof := (nr - 1) * (nc - 1)
      let obsAt := fun (i j : ℕ) =>
        let o := (m.getD i []).getD j 0
        if dof = 1 then
          (if expAt i j > o then o + 1/2 else if expAt i j < o then o - 1/2 else o)
        else o
      let chi := qSum ((List.range nr).map (fun i =>
        qSum ((List.range nc).map (fun j =>
          (obsAt i j - expAt i j) * (obsAt i j - expAt i j) / expAt i j))))
      .ok (chi, dof)

/-- Append the `χ²值` and `P值` columns: every row gets empty-string cells,
then the first row's cells are overwritten with the formatted statistic and
the (symbolic) formatted p-value. -/
def attachChi (t : DF) (chi : ℚ) (dof : ℕ) : DF :=
  ⟨t.cols ++ ["χ²值", "P值"],
   match t.rows with
   | [] => []
   | r :: rest =>
       (r ++ [PyVal.str (fmt2Mag chi), PyVal.pcell chi dof])
         :: rest.map (fun q => q ++ [PyVal.str "", PyVal.str ""])⟩

/-- The inner guard of `process_stats_table`: the cleaned observation
matrix has positive sum and more than one row
(`obs_clean.sum() > 0 and obs_clean.shape[0] > 1`). -/
def chiGuard (df : DF) : Bool :=
  PyFloat.gtb (pfSumAll (obsClean df)) (.fin 0) && decide (1 < (obsClean df).length)

/-- The body of `process_stats_table`'s `try` block (`app.py` lines 58-76):
coerce and enrich; with at least two value columns, drop all-zero
observation rows and, if the remainder has a positive sum and more than one
row, run the chi-square test and attach its columns.  An exception inside —
in practice `chi2_contingency` raising — surfaces as `.error`. -/
def statsTry (df : DF) : Except String DF :=
  if 2 ≤ valCount df then
    if chiGuard df = true then
      match allFinQ (obsClean df) with
      | none => .error "model: non-finite observation"
      | some m =>
          match chi2_contingency m with
          | .error e => .error e
          | .ok (chi, dof) => .ok (attachChi (enrichBase df) chi dof)
    else .ok (enrichBase df)
  else .ok (enrichBase df)

/-- `process_stats_table` (`app.py` lines 56-77): the `try` body, with any
exception degrading to the original table unmodified (`except: return df`). -/
def process_stats_table (df : DF) : DF :=
  match statsTry df with
  | .ok t => t
  | .error _ => df

/-- `bins = range(0, 101, 5)`: the 21 bin edges 0,5,...,100. -/
def binEdges : List ℕ := (List.range 21).map (fun i => 5 * i)

/-- `labels = [f"{i}-{i+4}" for i in range(0, 96, 5)] + ["100+"]`: the twenty
five-year labels `0-4` … `95-99` followed by the overflow label. -/
def binLabels : List String :=
  ((List.range 20).map (fun i => toString (5 * i) ++ "-" ++ toString (5 * i + 4)))
    ++ ["100+"]

/-- `labels = labels[:len(bins)-1]`: `pd.cut` needs one label per interval
(20 of them), so the list is truncated — dropping the `"100+"` label. -/
def binLabelsCut : List String := binLabels.take (binEdges.length - 1)

/-- `pd.cut(x, bins=range(0,101,5), labels=..., right=False)` on one value:
the interval index for values in `[0, 100)`, `none` (pandas `NaN`) for
out-of-range, non-finite or unparsable values — including everything `≥ 100`,
since the overflow label was truncated away. -/
def ageBinLabel (f : PyFloat) : Option String :=
  match f with
  | .fin q => if 0 ≤ q ∧ q < 100 then binLabelsCut.get? (qfloor (q / 5)).toNat else none
  | _ => none

/-- Ascending order on cell values as pandas' `unstack` sorts column keys:
numeric before string is an arbitrary tie-break for the mixed case, which no
exercised input reaches (sex categories are homogeneous strings). -/
def pyValLtb (a b : PyVal) : Bool :=
  match a, b with
  | .num f, .num g => PyFloat.ltb f g
  | .str s, .str t => decide (s < t)
  | .num _, .str _ => true
  | _, _ => false

/-- Insert into a sorted list (ascending, duplicates dropped by the caller). -/
def insertAsc (v : PyVal) (l : List PyVal) : List PyVal :=
  match l with
  | [] => [v]
  | x :: xs => if pyValLtb v x then v :: x :: xs else x :: insertAsc v xs

/-- Sorted deduplicated list of observed sex-category values. -/
def sortedUnique (l : List PyVal) : List PyVal :=
  l.dedup.foldr insertAsc []

/-- `AdvancedParser.bin_ages` (`app.py` lines 179-199): find a column whose
header contains `年龄` but not `组`; coerce it numeric; cut into the 5-year
bins (values `≥ 100` get no bin and are silently dropped, see
`binLabelsCut`).  With a sex column (`性` in some header), cross-tabulate
`groupby(['年龄组', sex]).size().unstack(fill_value=0)` — all twenty bin
categories appear as rows (categorical grouper, `observed=False`), `NaN`
bins and `NaN` sex keys are dropped from the counts, sex columns sorted
ascending.  Without one, `value_counts().sort_index()` — all twenty
categories with their counts — renamed to `年龄组`/`发病数`.  Without an
age-like column the frame is returned unchanged. -/
def bin_ages (df : DF) : DF :=
  match df.cols.findIdx? (fun c => strContains c "年龄" && !(strContains c "组")) with
  | none => df
  | some ai =>
      let binOf := fun (r : List PyVal) => ageBinLabel (toNumericCell (rowCell r ai))
      if df.cols.any (fun c => strContains c "性") then
        match df.cols.findIdx? (fun c => strContains c "性") with
        | none => df
        | some si =>
            let pairs := df.rows.filterMap (fun r =>
              match binOf r with
              | some b =>
                  if rowCell r si == PyVal.num .nan then none
                  else some (b, rowCell r si)
              | none => none)
            let sexVals := sortedUnique (pairs.map Prod.snd)
            ⟨"年龄组" :: sexVals.map pyValStr,
             binLabelsCut.map (fun b =>
               PyVal.str b :: sexVals.map (fun sv =>
                 PyVal.num (.fin (pairs.count (b, sv)))))⟩
      else
        ⟨["年龄组", "发病数"],
         binLabelsCut.map (fun b =>
           [PyVal.str b,
            PyVal.num (.fin ((df.rows.filterMap binOf).count b))])⟩

/-- `df.iloc[:, 0] = df.iloc[:, 0].astype(str)`: stringify the first cell of
every row. -/
def firstColStr (df : DF) : DF :=
  ⟨df.cols, df.rows.map (fun r =>
    match r with
    | [] => []
    | v :: t => PyVal.str (pyValStr v) :: t)⟩

/-- The summary-table cleaning at ingestion (`app.py` lines 220-222): every
column whose header contains `数` or `比` is passed cell-wise through the
numeric normalizer (`cleanSummaryCell`); other columns pass untouched.
(Rows are rectangular in pandas, matching `DF.wf`.) -/
def cleanSummary (df : DF) : DF :=
  let flags := df.cols.map (fun c => strContains c "数" || strContains c "比")
  ⟨df.cols, df.rows.map (fun r =>
    List.zipWith (fun fl v => if fl then cleanSummaryCell v else v) flags r)⟩

/-- The area-table transform (`app.py` lines 239-241): keep the first two
columns, rename them `Name`/`Cases`, normalize `Cases` by deleting commas
and coercing with zero default (no dash replacement in this branch). -/
def processArea (df : DF) : DF :=
  ⟨["Name", "Cases"],
   df.rows.map (fun r =>
     [rowCell r 0,
      PyVal.num (coerceFill0 (.str (delChar ',' (pyValStr (rowCell r 1)))))])⟩

/-- A parsed geographic feature collection (`json.load(f)["features"]`);
its content is never inspected by the core, only stored. -/
structure GeoData where
  features : List String
deriving DecidableEq, Repr

/-- The content a file decodes to.  Decoding primitives (CSV/Excel/GeoJSON
readers) are the given collaborators of the spec: a file arrives already
parsed as a table or a feature collection. -/
inductive FileContent where
  | table (df : DF)
  | geo (g : GeoData)
deriving DecidableEq, Repr

/-- An uploaded file: its name and decoded content. -/
structure PFile where
  name : String
  content : FileContent
deriving DecidableEq, Repr

/-- The data map owned by `AdvancedParser`: at most one table per semantic
role plus at most one geometry collection. -/
structure ParserState where
  summary : Option DF := none
  time : Option DF := none
  age : Option DF := none
  pop : Option DF := none
  area : Option DF := none
  geojson : Option GeoData := none
deriving DecidableEq, Repr

/-- `AdvancedParser.__init__`: every slot empty. -/
def initState : ParserState := {}

/-- `fname.endswith('.json') or fname.endswith('.geojson')`. -/
def isGeoName (n : String) : Bool := n.endsWith ".json" || n.endsWith ".geojson"

/-- Summary routing test (`app.py` line 218):
`'报表' in fname or ('病种' in cols and '本期' in cols)` where `cols` is the
concatenation of the headers. -/
def summaryHit (n cols : String) : Bool :=
  strContains n "报表" || (strContains cols "病种" && strContains cols "本期")

/-- Time routing test (line 225). -/
def timeHit (n cols : String) : Bool :=
  strContains n "时间" || (strContains cols "时间" && strContains cols "发病")

/-- Age routing test (line 228). -/
def ageHit (n cols : String) : Bool :=
  strContains n "年龄" || strContains cols "男"

/-- Population routing test (line 233). -/
def popHit (n cols : String) : Bool :=
  strContains n "人群" || strContains cols "职业"

/-- Area routing test (line 237). -/
def areaHit (n cols : String) : Bool :=
  strContains n "地区" || strContains cols "乡镇" || strContains cols "街道"

/-- Routing of one file through `parse_files`' loop body (`app.py` lines
203-244), first match wins.  A geometry-named file stores its feature
collection; a geometry-named file that is not valid GeoJSON, or a file
matching no rule, leaves the state unchanged (the per-file `try/except` only
logs). -/
def routeFile (st : ParserState) (f : PFile) : ParserState :=
  match f.content with
  | .geo g => if isGeoName f.name then { st with geojson := some g } else st
  | .table df =>
      if isGeoName f.name then st
      else if summaryHit f.name (String.join df.cols) then
        { st with summary := some (cleanSummary df) }
      else if timeHit f.name (String.join df.cols) then
        { st with time := some df }
      else if ageHit f.name (String.join df.cols) then
        { st with age := some (firstColStr (bin_ages df)) }
      else if popHit f.name (String.join df.cols) then
        { st with pop := some (firstColStr df) }
      else if areaHit f.name (String.join df.cols) then
        (if 2 ≤ df.cols.length then { st with area := some (processArea df) } else st)
      else st

/-- `AdvancedParser.parse_files`: fold the routing over the batch, starting
from the empty data map. -/
def parse_files (files : List PFile) : ParserState :=
  files.foldl routeFile initState


/-- Whether an `Except` computation succeeded. -/
def isOkB {ε α : Type} (e : Except ε α) : Bool :=
  match e with
  | .ok _ => true
  | .error _ => false

/-- The chi-square columns were attached to the table. -/
def hasChi (t : DF) : Prop := "χ²值" ∈ t.cols

/-- All cleaned observations are finite (every table exercised by the claims
satisfies this; scipy's silent `nan` propagation on non-finite input is
outside the model, see `allFinQ`). -/
def finObs (df : DF) : Bool :=
  (obsClean df).all (fun row => row.all PyFloat.isFinite)

/-- The cleaned observation matrix as exact rationals (meaningful under
`finObs`). -/
def finMatrix (df : DF) : List (List ℚ) :=
  (obsClean df).map (fun row => row.map (fun f =>
    match f with
    | .fin q => q
    | _ => 0))

/-- The amended attachment condition for `process_stats_table`: at least two
value columns, more than one non-all-zero observation row with positive
total, and a chi-square computation that does not raise. -/
def chiCond (df : DF) : Prop :=
  2 ≤ valCount df ∧ PyFloat.gtb (pfSumAll (obsClean df)) (.fin 0) = true ∧
    1 < (obsClean df).length ∧ isOkB (chi2_contingency (finMatrix df)) = true

/-- The file falls through every earlier routing rule and lands in the
`area` slot (with its two-column guard). -/
def routesToArea (f : PFile) : Bool :=
  match f.content with
  | .geo _ => false
  | .table df =>
      !isGeoName f.name && !summaryHit f.name (String.join df.cols) &&
        !timeHit f.name (String.join df.cols) && !ageHit f.name (String.join df.cols) &&
        !popHit f.name (String.join df.cols) && areaHit f.name (String.join df.cols) &&
        decide (2 ≤ df.cols.length)

/-- C1's summary table as uploaded: total-marker row with 100 cases, +5
month-over-month, −2 year-over-year, and two tier-B detail rows. -/
def c1SummaryDF : DF :=
  ⟨["病种", "本期发病数", "与上期比（%）", "与去年同期比（%）"],
   [[.str "合计", .num (.fin 100), .num (.fin 5), .num (.fin (-2))],
    [.str "梅毒", .num (.fin 60), .num (.fin 0), .num (.fin 0)],
    [.str "病毒性肝炎", .num (.fin 40), .num (.fin 0), .num (.fin 0)]]⟩

/-- C1's uploaded file: a filename carrying the `报表` marker. -/
def c1File : PFile := ⟨"疫情分析报表.xlsx", .table c1SummaryDF⟩

/-- The narrative the pipeline generates for `c1File` (note `上升2.00%`
for the year-over-year change: ingestion rewrote `-2` to `02`). -/
def c1Report : String :=
  "\n### 一、 近期概况\n**(一) 传染病报告信息管理系统**\n1. **传染病疫情**：本月我区共报告法定传染病 **2** 种 **100** 例。\n   与上月相比上升5.00%；与去年同期相比上升2.00%。\n        \n2. **乙类传染病**：本月报告 **2** 种，合计 **100** 例。\n   发病数居前几位的病种为：**梅毒（60例，占比60.00%，较上月持平，较去年同期持平）、病毒性肝炎（40例，占比40.00%，较上月持平，较去年同期持平）**。\n            \n3. **丙类传染病**：无报告。\n"

/-- C2's age table: one age column, ages 3, 7, 22, 101, no sex column. -/
def dfAges : DF :=
  ⟨["年龄"], [[.num (.fin 3)], [.num (.fin 7)], [.num (.fin 22)], [.num (.fin 101)]]⟩

/-- What `bin_ages` produces for `dfAges`: counts for the twenty retained
bins — the age 101 row is in none of them and there is no `100+` row. -/
def dfAgesBinned : DF :=
  ⟨["年龄组", "发病数"],
   [[.str "0-4", .num (.fin 1)], [.str "5-9", .num (.fin 1)],
    [.str "10-14", .num (.fin 0)], [.str "15-19", .num (.fin 0)],
    [.str "20-24", .num (.fin 1)], [.str "25-29", .num (.fin 0)],
    [.str "30-34", .num (.fin 0)], [.str "35-39", .num (.fin 0)],
    [.str "40-44", .num (.fin 0)], [.str "45-49", .num (.fin 0)],
    [.str "50-54", .num (.fin 0)], [.str "55-59", .num (.fin 0)],
    [.str "60-64", .num (.fin 0)], [.str "65-69", .num (.fin 0)],
    [.str "70-74", .num (.fin 0)], [.str "75-79", .num (.fin 0)],
    [.str "80-84", .num (.fin 0)], [.str "85-89", .num (.fin 0)],
    [.str "90-94", .num (.fin 0)], [.str "95-99", .num (.fin 0)]]⟩

/-- The labels of the rows `bin_ages` emits for `dfAges`. -/
def dfAgesBinnedLabels : List String :=
  (bin_ages dfAges).rows.map (fun r => pyValStr (rowCell r 0))

/-- Total of the counts `bin_ages` emits for `dfAges`. -/
def dfAgesBinnedCount : PyFloat :=
  pfSum ((bin_ages dfAges).rows.map (fun r => cellKey 1 r))

/-- C3's summary table with no total-marker row. -/
def dfNoTotal : DF :=
  ⟨["病种", "本期发病数"], [[.str "流行性感冒", .num (.fin 5)]]⟩

/-- C4's contingency table `[[10,20],[30,40]]`. -/
def df44 : DF :=
  ⟨["特征", "甲组", "乙组"],
   [[.str "甲", .num (.fin 10), .num (.fin 20)],
    [.str "乙", .num (.fin 30), .num (.fin 40)]]⟩

/-- A table meeting the claim's attachment conditions whose second value
column is all zero, so the chi-square test raises inside scipy. -/
def df40 : DF :=
  ⟨["特征", "甲组", "乙组"],
   [[.str "甲", .num (.fin 10), .num (.fin 0)],
    [.str "乙", .num (.fin 30), .num (.fin 0)]]⟩

/-- A table with a negative observation: scipy raises, the `except` path
returns it unmodified. -/
def df48 : DF :=
  ⟨["特征", "甲组", "乙组"],
   [[.str "甲", .num (.fin (-5)), .num (.fin 20)],
    [.str "乙", .num (.fin 30), .num (.fin 40)]]⟩

/-- C10-witness input: a summary frame whose count column holds the string
`"-3"`. -/
def dfW : DF := ⟨["病种", "本期发病数"], [[.str "X", .str "-3"]]⟩

/-- First area-routed file of the C9 witness. -/
def dfAreaA : DF := ⟨["乡镇", "病例数"], [[.str "东街道", .num (.fin 5)]]⟩

/-- Second area-routed file of the C9 witness. -/
def dfAreaB : DF := ⟨["乡镇", "病例数"], [[.str "西街道", .num (.fin 8)]]⟩

/-- The two C9-witness uploads, both routing to `area`. -/
def fileAreaA : PFile := ⟨"地区分布甲.csv", .table dfAreaA⟩

/-- Second C9-witness upload. -/
def fileAreaB : PFile := ⟨"地区分布乙.csv", .table dfAreaB⟩

/-! ### Helper lemmas -/

theorem qpow10n_pos (n : ℕ) : 0 < qpow10n n := by
  unfold qpow10n
  exact Nat.cast_pos.mpr (pow_pos (by norm_num) n)

theorem qpow10z_pos (e : ℤ) : 0 < qpow10z e := by
  unfold qpow10z
  split
  · exact qpow10n_pos _
  · exact div_pos one_pos (qpow10n_pos _)

theorem mem_stripList {x : Char} {cs : List Char} (h : x ∈ stripList cs) : x ∈ cs := by
  unfold stripList at h
  rw [List.mem_reverse] at h
  have h1 := (List.dropWhile_sublist isPyWS).subset h
  rw [List.mem_reverse] at h1
  exact (List.dropWhile_sublist isPyWS).subset h1

theorem mapChar_dash_free (s : String) : '-' ∉ (mapChar '-' '0' s).data := by
  unfold mapChar
  intro h
  simp only [List.mem_map] at h
  obtain ⟨y, _, hy⟩ := h
  by_cases hc : y = '-'
  · rw [if_pos hc] at hy
    exact absurd hy (by decide)
  · rw [if_neg hc] at hy
    exact hc hy

theorem parseMantissa_nonneg {cs : List Char} {m : ℚ} {rest : List Char}
    (h : parseMantissa cs = some (m, rest)) : 0 ≤ m := by
  unfold parseMantissa at h
  split at h
  · split at h
    · exact absurd h (by simp)
    · simp only [Option.some.injEq, Prod.mk.injEq] at h
      obtain ⟨h1, _⟩ := h
      rw [← h1]
      exact add_nonneg (Nat.cast_nonneg _)
        (div_nonneg (Nat.cast_nonneg _) (qpow10n_pos _).le)
  · split at h
    · exact absurd h (by simp)
    · simp only [Option.some.injEq, Prod.mk.injEq] at h
      obtain ⟨h1, _⟩ := h
      rw [← h1]
      exact Nat.cast_nonneg _

theorem pyParseMag_shape {cs : List Char} {f : PyFloat} (h : pyParseMag cs = some f) :
    f = .inf ∨ f = .nan ∨ ∃ q : ℚ, f = .fin q ∧ 0 ≤ q := by
  unfold pyParseMag at h
  split at h
  · simp only [Option.some.injEq] at h
    exact Or.inl h.symm
  · split at h
    · simp only [Option.some.injEq] at h
      exact Or.inr (Or.inl h.symm)
    · split at h
      · exact absurd h (by simp)
      · rename_i m rest hm
        split at h
        · exact absurd h (by simp)
        · rename_i e he
          simp only [Option.some.injEq] at h
          refine Or.inr (Or.inr ⟨m * qpow10z e, h.symm, ?_⟩)
          exact mul_nonneg (parseMantissa_nonneg hm) (qpow10z_pos e).le

theorem pyParseSigned_shape {cs : List Char} (hnd : '-' ∉ cs) {f : PyFloat}
    (h : pyParseSigned cs = some f) :
    f = .inf ∨ f = .nan ∨ ∃ q : ℚ, f = .fin q ∧ 0 ≤ q := by
  unfold pyParseSigned at h
  split at h
  · rename_i r
    exact absurd (List.mem_cons_self '-' r) hnd
  · exact pyParseMag_shape h
  · exact pyParseMag_shape h

theorem toNumber_shape (s : String) :
    toNumber s = .inf ∨ ∃ q : ℚ, toNumber s = .fin q ∧ 0 ≤ q := by
  have hnd : '-' ∉ stripList (mapChar '-' '0' (delChar ',' s)).data :=
    fun hm => mapChar_dash_free _ (mem_stripList hm)
  have hto : toNumber s
      = coerceFill0 (.str (mapChar '-' '0' (delChar ',' s))) := rfl
  cases hp : pyParseSigned (stripList (mapChar '-' '0' (delChar ',' s)).data) with
  | none =>
      right
      refine ⟨0, ?_, le_refl 0⟩
      rw [hto]
      simp only [coerceFill0, toNumericCell, pyParseFloat, hp]
      rfl
  | some f =>
      rcases pyParseSigned_shape hnd hp with hf | hf | ⟨q, hf, hq⟩
      · left
        rw [hto]
        simp only [coerceFill0, toNumericCell, pyParseFloat, hp, hf]
        rfl
      · right
        refine ⟨0, ?_, le_refl 0⟩
        rw [hto]
        simp only [coerceFill0, toNumericCell, pyParseFloat, hp, hf]
        rfl
      · right
        refine ⟨q, ?_, hq⟩
        rw [hto]
        simp only [coerceFill0, toNumericCell, pyParseFloat, hp, hf]
        rfl

/-! ### Claim theorems -/

/-- C6 counterexample: the claim says the normalizer always returns a finite
float, but the string `"inf"` parses to infinity (pandas' numeric conversion
accepts the token), which is returned as-is. -/
theorem toNumber_inf_not_finite :
    toNumber "inf" = PyFloat.inf ∧ (toNumber "inf").isFinite = false :=
  ⟨by with_unfolding_all rfl, by with_unfolding_all rfl⟩

/-- C6 (amended): the numeric normalizer is total and never raises; it
strips thousands separators, maps a bare dash to zero, and defaults to 0.0
on unparsable input; every result is a nonnegative finite float except for
inputs denoting infinity, which yield `inf`. -/
theorem toNumber_total_amended :
    (∀ s : String, toNumber s = PyFloat.inf
      ∨ ∃ q : ℚ, toNumber s = .fin q ∧ 0 ≤ q) ∧
    toNumber "" = .fin 0 ∧ toNumber "1,234" = .fin 1234 ∧
    toNumber "-" = .fin 0 ∧ toNumber "abc" = .fin 0 :=
  ⟨toNumber_shape, by with_unfolding_all rfl, by with_unfolding_all rfl,
    by with_unfolding_all rfl, by with_unfolding_all rfl⟩

/-- C10: in summary ingestion every dash anywhere in the cell's string form
is replaced by `'0'` before parsing (`toNumber` is applied to the stringified
cell, and its input string is dash-free); consequently `"-3"` ingests as
`3.0`, `"-2"` as `2.0`, and a cleaned count/ratio cell is never negative
(nonnegative finite or `inf`).  The last conjunct ties this to the router:
in every column whose header contains `数` or `比`, the routed summary
table's cell is `cleanSummaryCell` of the original cell. -/
theorem summary_dash_cleaning :
    cleanSummaryCell (.str "-3") = .num (.fin 3) ∧
    cleanSummaryCell (.str "-2") = .num (.fin 2) ∧
    (∀ s : String, '-' ∉ (mapChar '-' '0' (delChar ',' s)).data) ∧
    (∀ v : PyVal, cleanSummaryCell v = .num (toNumber (pyValStr v))) ∧
    (∀ v : PyVal, cleanSummaryCell v = .num PyFloat.inf ∨
      ∃ q : ℚ, cleanSummaryCell v = .num (.fin q) ∧ 0 ≤ q) ∧
    (∀ (df : DF) (j i : ℕ) (r rc : List PyVal),
      df.rows.get? j = some r → (cleanSummary df).rows.get? j = some rc →
      i < df.cols.length → r.length = df.cols.length →
      (strContains (df.cols.getD i "") "数" || strContains (df.cols.getD i "") "比") = true →
      rowCell rc i = cleanSummaryCell (rowCell r i)) := by
  refine ⟨by with_unfolding_all rfl, by with_unfolding_all rfl,
    fun s => mapChar_dash_free (delChar ',' s), fun v => rfl, ?_, ?_⟩
  · intro v
    rcases toNumber_shape (pyValStr v) with h | ⟨q, h, hq⟩
    · exact Or.inl (by rw [show cleanSummaryCell v = .num (toNumber (pyValStr v)) from rfl, h])
    · exact Or.inr ⟨q, by rw [show cleanSummaryCell v = .num (toNumber (pyValStr v)) from rfl, h], hq⟩
  · intro df j i r rc hr hrc hi hlen hflag
    have hmap : (cleanSummary df).rows
        = df.rows.map (fun row => List.zipWith (fun fl v => if fl then cleanSummaryCell v else v)
            (df.cols.map (fun c => strContains c "数" || strContains c "比")) row) := rfl
    rw [hmap, List.get?_map, hr] at hrc
    simp only [Option.map_some'] at hrc
    have hrc2 : rc = _ := (Option.some.inj hrc).symm
    subst hrc2
    have hflen : (df.cols.map (fun c => strContains c "数" || strContains c "比")).length
        = df.cols.length := List.length_map _ _
    have hzlen : i < (List.zipWith (fun fl v => if fl then cleanSummaryCell v else v)
        (df.cols.map (fun c => strContains c "数" || strContains c "比")) r).length := by
      rw [List.length_zipWith, hflen, hlen]
      simpa using hi
    have hri : i < r.length := by rw [hlen]; exact hi
    unfold rowCell
    rw [List.getD_eq_getElem _ _ hzlen, List.getD_eq_getElem _ _ hri]
    rw [List.getElem_zipWith, List.getElem_map]
    have hcd : df.cols.getD i "" = df.cols[i] := List.getD_eq_getElem _ _ hi
    rw [hcd] at hflag
    rw [hflag]
    rfl

/-- C10 witness: the router-cleaned cell of `dfW`'s count column equals
`cleanSummaryCell` of the original `"-3"` cell. -/
theorem summary_dash_cleaning_witness :
    rowCell [PyVal.str "X", PyVal.num (PyFloat.fin 3)] 1
      = cleanSummaryCell (rowCell [PyVal.str "X", PyVal.str "-3"] 1) :=
  summary_dash_cleaning.2.2.2.2.2 dfW 0 1 _ _ rfl (by with_unfolding_all rfl)
    (by decide) rfl (by decide)

/-- C5: `get_disease_class` is total and deterministic with the fixed
evaluation order tier-A exact → tier-B exact-or-substring → tier-C
exact-or-substring → `其他`: every tier-A exact name classifies `甲类`; any
name whose normalized form is outside the tier-A set but in the tier-B set
or containing a tier-B key classifies `乙类`; analogously `丙类`; anything
else `其他`; and the result always lies in the four-tier enumeration. -/
theorem classify_order_total :
    (∀ s ∈ classA, get_disease_class s = "甲类") ∧
    (∀ s : String, normName s ∉ classA →
      (normName s ∈ classB ∨ bKeys.any (fun k => strContains (normName s) k) = true) →
      get_disease_class s = "乙类") ∧
    (∀ s : String, normName s ∉ classA →
      ¬(normName s ∈ classB ∨ bKeys.any (fun k => strContains (normName s) k) = true) →
      (normName s ∈ classC ∨ cKeys.any (fun k => strContains (normName s) k) = true) →
      get_disease_class s = "丙类") ∧
    (∀ s : String, normName s ∉ classA →
      ¬(normName s ∈ classB ∨ bKeys.any (fun k => strContains (normName s) k) = true) →
      ¬(normName s ∈ classC ∨ cKeys.any (fun k => strContains (normName s) k) = true) →
      get_disease_class s = "其他") ∧
    (∀ s : String, get_disease_class s = "甲类" ∨ get_disease_class s = "乙类" ∨
      get_disease_class s = "丙类" ∨ get_disease_class s = "其他") := by
  refine ⟨by decide, ?_, ?_, ?_, ?_⟩
  · intro s h1 h2
    unfold get_disease_class
    rw [if_neg h1, if_pos h2]
  · intro s h1 h2 h3
    unfold get_disease_class
    rw [if_neg h1, if_neg h2, if_pos h3]
  · intro s h1 h2 h3
    unfold get_disease_class
    rw [if_neg h1, if_neg h2, if_neg h3]
  · intro s
    unfold get_disease_class
    split_ifs <;> simp

/-- C5 witness: `乙型病毒性肝炎` is in no exact set but contains the tier-B
key `肝炎`, so it classifies `乙类`. -/
theorem classify_order_total_witness : get_disease_class "乙型病毒性肝炎" = "乙类" :=
  classify_order_total.2.1 "乙型病毒性肝炎" (by decide) (by decide)

/-- C3: a missing summary table yields the fixed placeholder normally, but
report generation on a present summary table with no `合计`-marker row
raises (`.iloc[0]` of an empty selection), contradicting the claim that it
never raises for any summary-table content. -/
theorem report_missing_total_row_raises :
    generate_full_report none = Except.ok "⚠️ 缺失疫情分析报表，无法生成概况。" ∧
    generate_full_report (some dfNoTotal)
      = Except.error "IndexError: single positional indexer is out-of-bounds" :=
  ⟨by with_unfolding_all rfl, by with_unfolding_all rfl⟩

set_option maxRecDepth 100000 in
/-- C2: binning ages `[3, 7, 22, 101]` with no sex column yields counts 1
for `0-4`, `5-9` and `20-24` and 0 for the remaining seventeen bins, but —
because `labels[:len(bins)-1]` truncates away the constructed `"100+"`
label — no `100+` bin exists and the age-101 row is silently dropped: the
emitted labels do not include `100+` and the counts sum to 3, not 4. -/
theorem bin_ages_drops_overflow_bin :
    bin_ages dfAges = dfAgesBinned ∧
    dfAgesBinnedLabels.contains "100+" = false ∧
    dfAgesBinnedCount = PyFloat.fin 3 :=
  ⟨by with_unfolding_all rfl, by with_unfolding_all rfl, by with_unfolding_all rfl⟩

set_option maxRecDepth 400000 in
/-- C1: the end-to-end pipeline on a router-ingested summary table whose
total row has `cases=100, mom=5, yoy=-2` and two positive tier-B rows.  The
first paragraph contains `100` and the increase-of-5.00% phrase, and the
second paragraph enumerates the tier-B rows ranked by case count descending
— but the year-over-year phrase is `上升2.00%` (increase), not the claimed
`下降2.00%` (decrease): ingestion's dash replacement turned `-2` into `02`. -/
theorem summary_pipeline_yoy_sign_bug :
    generate_full_report (parse_files [c1File]).summary = Except.ok c1Report ∧
    strContains c1Report "100" = true ∧
    strContains c1Report "上升5.00%" = true ∧
    strContains c1Report "上升2.00%" = true ∧
    strContains c1Report "下降2.00%" = false ∧
    strContains c1Report "梅毒（60例，占比60.00%，较上月持平，较去年同期持平）、病毒性肝炎（40例，占比40.00%，较上月持平，较去年同期持平）" = true :=
  ⟨by with_unfolding_all rfl, by decide, by decide, by decide, by decide, by decide⟩

/-- C8: whatever exception arises inside the statistics computation,
`process_stats_table` returns its input table unmodified instead of
propagating it. -/
theorem computeStats_exception_returns_unmodified :
    ∀ (df : DF) (e : String), statsTry df = Except.error e →
      process_stats_table df = df := by
  intro df e h
  unfold process_stats_table
  rw [h]

/-- C8 witness: a table with a negative observation makes scipy raise; the
table comes back unmodified, with no derived columns. -/
theorem computeStats_exception_returns_unmodified_witness :
    process_stats_table df48 = df48 :=
  computeStats_exception_returns_unmodified df48
    "ValueError: All values in observed must be nonnegative."
    (by with_unfolding_all rfl)

/-- When a file routes to `area`, the loop body stores exactly its processed
two-column table in the `area` slot, overwriting whatever was there. -/
theorem routeFile_area_set {st : ParserState} {f : PFile} {df : DF}
    (hc : f.content = .table df) (h : routesToArea f = true) :
    routeFile st f = { st with area := some (processArea df) } := by
  unfold routesToArea at h
  rw [hc] at h
  simp only [Bool.and_eq_true, Bool.not_eq_true', decide_eq_true_eq] at h
  obtain ⟨⟨⟨⟨⟨⟨h1, h2⟩, h3⟩, h4⟩, h5⟩, h6⟩, h7⟩ := h
  unfold routeFile
  rw [hc]
  simp [h1, h2, h3, h4, h5, h6, h7]

/-- C9: ingestion is last-write-wins per role — when two files both route to
`area`, the final data map holds exactly the second file's processed table
(no merge). -/
theorem area_last_write_wins :
    ∀ (f1 f2 : PFile) (df1 df2 : DF),
      f1.content = .table df1 → f2.content = .table df2 →
      routesToArea f1 = true → routesToArea f2 = true →
      (parse_files [f1, f2]).area = some (processArea df2) := by
  intro f1 f2 df1 df2 hc1 hc2 h1 h2
  show (routeFile (routeFile initState f1) f2).area = _
  rw [routeFile_area_set hc2 h2]

/-- C9 witness: two concrete area uploads; the map ends with the second. -/
theorem area_last_write_wins_witness :
    (parse_files [fileAreaA, fileAreaB]).area = some (processArea dfAreaB) :=
  area_last_write_wins fileAreaA fileAreaB dfAreaA dfAreaB rfl rfl
    (by decide) (by decide)

theorem rowFinQ {row : List PyFloat} (h : row.all PyFloat.isFinite = true) :
    (row.mapM (fun f => match f with | .fin q => some q | _ => none))
      = some (row.map (fun f => match f with | .fin q => q | _ => 0)) := by
  induction row with
  | nil => rfl
  | cons x t ih =>
      rw [List.all_cons, Bool.and_eq_true] at h
      cases x with
      | fin q =>
          rw [List.mapM_cons, ih h.2]
          rfl
      | inf => exact absurd h.1 (by decide)
      | ninf => exact absurd h.1 (by decide)
      | nan => exact absurd h.1 (by decide)

theorem matFinQ {m : List (List PyFloat)}
    (h : ∀ row ∈ m, row.all PyFloat.isFinite = true) :
    (m.mapM (fun row => row.mapM (fun f =>
        match f with | .fin q => some q | _ => none)))
      = some (m.map (fun row => row.map (fun f =>
        match f with | .fin q => q | _ => 0))) := by
  induction m with
  | nil => rfl
  | cons row t ih =>
      rw [List.mapM_cons, rowFinQ (h row (List.mem_cons_self row t)),
        ih (fun x hx => h x (List.mem_cons_of_mem _ hx))]
      rfl

theorem allFinQ_of_finObs {df : DF} (h : finObs df = true) :
    allFinQ (obsClean df) = some (finMatrix df) := by
  unfold finObs at h
  rw [List.all_eq_true] at h
  exact matFinQ h

theorem chiGuard_iff (df : DF) :
    chiGuard df = true ↔ (PyFloat.gtb (pfSumAll (obsClean df)) (.fin 0) = true ∧
      1 < (obsClean df).length) := by
  unfold chiGuard
  rw [Bool.and_eq_true, decide_eq_true_eq]

theorem statsTry_cases (df : DF) (hfin : finObs df = true) :
    (¬(2 ≤ valCount df ∧ chiGuard df = true) ∧ statsTry df = .ok (enrichBase df)) ∨
    (∃ chi dof, (2 ≤ valCount df ∧ chiGuard df = true) ∧
      chi2_contingency (finMatrix df) = .ok (chi, dof) ∧
      statsTry df = .ok (attachChi (enrichBase df) chi dof)) ∨
    (∃ e, (2 ≤ valCount df ∧ chiGuard df = true) ∧
      chi2_contingency (finMatrix df) = .error e ∧ statsTry df = .error e) := by
  by_cases hv : 2 ≤ valCount df
  · by_cases hg : chiGuard df = true
    · cases hc2 : chi2_contingency (finMatrix df) with
      | ok p =>
          obtain ⟨chi, dof⟩ := p
          refine Or.inr (Or.inl ⟨chi, dof, ⟨hv, hg⟩, rfl, ?_⟩)
          unfold statsTry
          rw [if_pos hv, if_pos hg]
          simp only [allFinQ_of_finObs hfin, hc2]
      | error e =>
          refine Or.inr (Or.inr ⟨e, ⟨hv, hg⟩, rfl, ?_⟩)
          unfold statsTry
          rw [if_pos hv, if_pos hg]
          simp only [allFinQ_of_finObs hfin, hc2]
    · refine Or.inl ⟨fun hh => hg hh.2, ?_⟩
      unfold statsTry
      rw [if_pos hv, if_neg hg]
  · refine Or.inl ⟨fun hh => hv hh.1, ?_⟩
    unfold statsTry
    rw [if_neg hv]

theorem hasChi_enrichBase {df : DF} (hnc : "χ²值" ∉ df.cols) :
    ¬ hasChi (enrichBase df) := by
  unfold hasChi
  rw [show (enrichBase df).cols = df.cols ++ ["合计", "构成比(%)"] from rfl]
  intro hmem
  rcases List.mem_append.mp hmem with h | h
  · exact hnc h
  · exact absurd h (by decide)

theorem hasChi_attachChi (t : DF) (chi : ℚ) (dof : ℕ) :
    hasChi (attachChi t chi dof) := by
  unfold hasChi
  rw [show (attachChi t chi dof).cols = t.cols ++ ["χ²值", "P值"] from rfl]
  exact List.mem_append.mpr (Or.inr (by decide))

/-- C4 counterexample: `df40` satisfies the claim's attachment condition —
two value columns, two non-all-zero observation rows, positive grand
total — yet no chi-square column is attached: its all-zero second column
gives a zero expected frequency, scipy raises, and the `except` path
returns the table unmodified.  This refutes the claimed "if and only if". -/
theorem computeStats_cond_without_attach :
    (2 ≤ valCount df40 ∧ PyFloat.gtb (pfSumAll (obsClean df40)) (.fin 0) = true ∧
      1 < (obsClean df40).length) ∧ ¬ hasChi (process_stats_table df40) := by
  constructor
  · exact ⟨by decide, by with_unfolding_all rfl, by with_unfolding_all decide⟩
  · have h : process_stats_table df40 = df40 := by with_unfolding_all rfl
    unfold hasChi
    rw [h]
    decide

/-- C4 (amended): for tables whose value cells clean to finite numbers and
which do not already carry a `χ²值` column, `process_stats_table` attaches
the chi-square/p-value columns if and only if there are at least two value
columns, the cleaned observations keep more than one row with positive
total, **and** the chi-square computation itself succeeds (no zero expected
frequency, no negative observation); with exactly one value column they are
never attached; when attached, the first output row carries the formatted
statistic and p-value and every other row has empty-string cells there. -/
theorem computeStats_attach_iff_amended :
    (∀ df : DF, "χ²值" ∉ df.cols → finObs df = true →
      (hasChi (process_stats_table df) ↔ chiCond df)) ∧
    (∀ df : DF, "χ²值" ∉ df.cols → valCount df = 1 →
      ¬ hasChi (process_stats_table df)) ∧
    (∀ df : DF, finObs df = true → chiCond df →
      ∃ chi dof, chi2_contingency (finMatrix df) = .ok (chi, dof) ∧
        process_stats_table df = attachChi (enrichBase df) chi dof) ∧
    (∀ (t : DF) (chi : ℚ) (dof : ℕ),
      (attachChi t chi dof).rows.drop 1
        = (t.rows.drop 1).map (fun r => r ++ [PyVal.str "", PyVal.str ""]) ∧
      (∀ r0 rest, t.rows = r0 :: rest →
        (attachChi t chi dof).rows
          = (r0 ++ [PyVal.str (fmt2Mag chi), PyVal.pcell chi dof])
              :: rest.map (fun r => r ++ [PyVal.str "", PyVal.str ""]))) := by
  refine ⟨?_, ?_, ?_, ?_⟩
  · intro df hnc hfin
    rcases statsTry_cases df hfin with ⟨hng, hs⟩ | ⟨chi, dof, ⟨hv, hg⟩, hc2, hs⟩
        | ⟨e, ⟨hv, hg⟩, hc2, hs⟩
    · constructor
      · intro hchi
        exfalso
        unfold process_stats_table at hchi
        rw [hs] at hchi
        exact hasChi_enrichBase hnc hchi
      · intro hcond
        exact absurd ⟨hcond.1, (chiGuard_iff df).mpr ⟨hcond.2.1, hcond.2.2.1⟩⟩ hng
    · constructor
      · intro _
        refine ⟨hv, ((chiGuard_iff df).mp hg).1, ((chiGuard_iff df).mp hg).2, ?_⟩
        rw [hc2]
        rfl
      · intro _
        unfold process_stats_table
        rw [hs]
        exact hasChi_attachChi _ _ _
    · constructor
      · intro hchi
        exfalso
        unfold process_stats_table at hchi
        rw [hs] at hchi
        exact hnc hchi
      · intro hcond
        exfalso
        have hok := hcond.2.2.2
        rw [hc2] at hok
        simp [isOkB] at hok
  · intro df hnc h1 hchi
    have hv : ¬ (2 ≤ valCount df) := by omega
    have hs : statsTry df = .ok (enrichBase df) := by
      unfold statsTry
      rw [if_neg hv]
    unfold process_stats_table at hchi
    rw [hs] at hchi
    exact hasChi_enrichBase hnc hchi
  · intro df hfin hcond
    rcases statsTry_cases df hfin with ⟨hng, hs⟩ | ⟨chi, dof, hvg, hc2, hs⟩
        | ⟨e, hvg, hc2, hs⟩
    · exact absurd ⟨hcond.1, (chiGuard_iff df).mpr ⟨hcond.2.1, hcond.2.2.1⟩⟩ hng
    · refine ⟨chi, dof, hc2, ?_⟩
      unfold process_stats_table
      rw [hs]
    · exfalso
      have hok := hcond.2.2.2
      rw [hc2] at hok
      simp [isOkB] at hok
  · intro t chi dof
    constructor
    · cases ht : t.rows with
      | nil =>
          unfold attachChi
          rw [ht]
          rfl
      | cons r0 rest =>
          unfold attachChi
          rw [ht]
          rfl
    · intro r0 rest ht
      unfold attachChi
      rw [ht]

/-- C4 witness: on `[[10,20],[30,40]]` the amended condition holds and the
chi-square column is attached. -/
theorem computeStats_attach_iff_amended_witness :
    hasChi (process_stats_table df44) :=
  (computeStats_attach_iff_amended.1 df44 (by decide)
      (by with_unfolding_all rfl)).mpr
    ⟨by decide, by with_unfolding_all rfl, by with_unfolding_all decide,
      by with_unfolding_all rfl⟩
